import Mathlib

/-
Verification of src/web/socket_listener.js: the SocketListener and
StateListener classes (a reconnecting WebSocket wrapper and a JSON state
channel on top of it), embedded shallowly in Lean.

Modelling conventions:
 * JS values decoded from JSON are the inductive `Json`; the JS value
   `undefined` is `Option.none` where it can occur.
 * Thrown JS exceptions are modelled with `Except JsErr`.
 * The browser primitives (`WebSocket`, `addEventListener`,
   `window.setTimeout`) are modelled by an explicit socket record holding its
   listener list, and a list of pending timer delays; transport events and
   timer expiry are driven by an explicit step relation.
 * Caller-supplied callback functions are opaque and identified by numbers
   (`Handler.caller i`); the one closure the class itself creates inside
   `initConnection` is `Handler.structural`.
-/

set_option maxHeartbeats 1000000

namespace EliteLog

/-- JSON values as produced by a successful `JSON.parse` of a text frame. -/
inductive Json where
  | null
  | bool (b : Bool)
  | num (n : Int)
  | str (s : String)
  | arr (elems : List Json)
  | obj (fields : List (String × Json))

/-- JS property access `j[k]` on a decoded JSON value: an object yields its
field's value, or `none` (JS `undefined`) when the key is absent; any other
non-null value (string, number, boolean, array) also yields `undefined`.
Access on `null` throws a TypeError in JS and is modelled at the call site. -/
def Json.getField : Json → String → Option Json
  | .obj fields, k => (fields.find? (fun p => p.1 == k)).map (fun p => p.2)
  | _, _ => none

/-- The runtime exceptions the source can raise. -/
inductive JsErr where
  | syntaxError (source : String)
  | referenceError (name : String)
  | typeError (msg : String)
deriving DecidableEq

/-- Identity of a listener attached to a socket: one of the caller's callback
functions (numbered), or the reconnect-scheduling close handler that
`initConnection` creates itself (source lines 45-58). -/
inductive Handler where
  | caller (id : Nat)
  | structural
deriving DecidableEq

/-- Whether a handler is the structural reconnect close handler. -/
def Handler.isStructural : Handler → Bool
  | .structural => true
  | .caller _ => false

/-- A callback map passed to `addListeners`: an association list of event type
to handler, in property insertion order (the order the `for..in` loop
iterates own string keys of an object literal). -/
abbrev CallbackMap := List (String × Handler)

/-- One `WebSocket` handle. `listeners` is the list of
`(eventType, handler invoked at dispatch)` pairs in registration order;
`closeRequested` records a call of `socket.close()`; `sid` is an observation
field distinguishing the handles created over time. -/
structure Socket where
  sid : Nat
  listeners : List (String × Handler)
  closeRequested : Bool

/-- The listeners one run of the `for..in` loop of `addListeners` (source
lines 71-76) leaves attached. The loop declares `callback` with `var`, so the
binding is function scoped: every wrapper closure created in the loop closes
over the same single binding. Events fire only after the loop has finished,
when `callback` holds the value assigned in the LAST iteration; hence every
key of the map gets its own listener entry, but each of those listeners
invokes the handler of the map's last entry. -/
def attachEntries (m : CallbackMap) : CallbackMap :=
  match m.getLast? with
  | none => []
  | some last => m.map (fun p => (p.1, last.2))

/-- The state of one `SocketListener` instance together with the browser
environment it touches. `timers` holds the delays (in ms) of the pending
`window.setTimeout(initConnection, _)` callbacks in scheduling order;
`errorLogs` collects `console.error` output; `nextSid` and `connectAttempts`
are observation fields counting the sockets created (one per run of
`initConnection`). -/
structure SLState where
  url : String
  callbacks : Option CallbackMap
  closed_repeat_delay : Nat
  socket : Option Socket
  nextSid : Nat
  timers : List Nat
  errorLogs : List String
  connectAttempts : Nat

/-- `SocketListener.addListeners(callbacks)` (source lines 66-77): with an
undefined map it logs an error and returns; otherwise it attaches the loop's
wrappers (see `attachEntries`) to `this.socket`. If `this.socket` were
undefined while the map has an entry, the first `addEventListener` call would
throw a TypeError; this never happens in the program, since both call sites
run right after `this.socket` is assigned. -/
def addListeners (st : SLState) (callbacks : Option CallbackMap) :
    Except JsErr SLState :=
  match callbacks with
  | none =>
      .ok { st with errorLogs :=
              st.errorLogs ++ ["SocketListener:addListener() no callbacks passed"] }
  | some m =>
      match st.socket with
      | some s =>
          .ok { st with socket := some { s with listeners := s.listeners ++ attachEntries m } }
      | none =>
          if m.isEmpty then .ok st
          else .error (.typeError "this.socket is undefined")

/-- `SocketListener.initConnection()` (source lines 36-59): creates a fresh
`WebSocket`, attaches the caller-supplied callbacks, then attaches the
structural close handler that will schedule a reconnect. -/
def initConnection (st : SLState) : Except JsErr SLState :=
  let st1 : SLState := { st with
    socket := some { sid := st.nextSid, listeners := [], closeRequested := false },
    nextSid := st.nextSid + 1,
    connectAttempts := st.connectAttempts + 1 }
  match addListeners st1 st1.callbacks with
  | .error e => .error e
  | .ok st2 => addListeners st2 (some [("close", Handler.structural)])

/-- `new SocketListener(url, callbacks)` (source lines 22-30): stores the url
and callback map, sets `closed_repeat_delay` to 10 (seconds), and immediately
runs `initConnection`. -/
def SocketListener.construct (url : String) (callbacks : Option CallbackMap) :
    Except JsErr SLState :=
  initConnection
    { url := url, callbacks := callbacks, closed_repeat_delay := 10,
      socket := none, nextSid := 0, timers := [], errorLogs := [],
      connectAttempts := 0 }

/-- `SocketListener.close()` (source lines 79-83): requests closure of the
current socket when one exists; otherwise does nothing. -/
def SocketListener.close (st : SLState) : SLState :=
  match st.socket with
  | none => st
  | some s => { st with socket := some { s with closeRequested := true } }

/-- How many structural reconnect close handlers are attached to a socket. -/
def structuralCloseCount (s : Socket) : Nat :=
  (s.listeners.filter (fun p => p.1 == "close" && p.2.isStructural)).length

/-- The handlers invoked, in registration order, when a close event fires on
a socket: exactly the listeners registered under the key "close". -/
def firedOnClose (s : Socket) : List Handler :=
  (s.listeners.filter (fun p => p.1 == "close")).map (fun p => p.2)

/-- Effect on the SocketListener state of a transport close event on the
current socket: every listener under "close" fires; the caller's opaque
handlers do not touch this state, and each structural handler executes
`window.setTimeout(this.initConnection.bind(this), this.closed_repeat_delay * 1000)`,
appending one pending timer. -/
def fireClose (st : SLState) : SLState :=
  match st.socket with
  | none => st
  | some s =>
      { st with timers :=
          st.timers ++ List.replicate (structuralCloseCount s) (st.closed_repeat_delay * 1000) }

/-- The external occurrences that drive a SocketListener: a transport close
event on the current socket, or expiry of the oldest pending reconnect
timer. -/
inductive DriverEvent where
  | closeEvent
  | timerFire
deriving DecidableEq

/-- One driving step. Timer expiry removes the pending timer and runs the
scheduled `initConnection`; expiry with no pending timer is a no-op. -/
def step (st : SLState) : DriverEvent → Except JsErr SLState
  | .closeEvent => .ok (fireClose st)
  | .timerFire =>
      match st.timers with
      | [] => .ok st
      | _ :: rest => initConnection { st with timers := rest }

/-- Step lifted to exception-carrying states: a raised exception stops the
run. -/
def stepE (r : Except JsErr SLState) (e : DriverEvent) : Except JsErr SLState :=
  match r with
  | .error err => .error err
  | .ok st => step st e

/-- Construct a SocketListener and drive it through a sequence of events. -/
def runEvents (url : String) (callbacks : Option CallbackMap)
    (evs : List DriverEvent) : Except JsErr SLState :=
  evs.foldl stepE (SocketListener.construct url callbacks)

/-- A caller-supplied callback map never contains the structural handler:
that closure is created privately inside `initConnection`. -/
def noStructuralMap : Option CallbackMap → Bool
  | none => true
  | some m => m.all (fun p => !p.2.isStructural)

/-- The event list of n close/reconnect cycles: each cycle is one transport
close followed by expiry of a pending reconnect timer. -/
def retryCycles : Nat → List DriverEvent
  | 0 => []
  | n + 1 => DriverEvent.closeEvent :: DriverEvent.timerFire :: retryCycles n

/-- An event object as handed to `genericEventListener`: its own `type`
property and, for message events, the text payload `data`. -/
structure SocketEvent where
  type : String
  data : String

/-- The state of one `StateListener` instance. The user's
`stateChangeCallback` function is opaque; `hasCallback` records whether one
was supplied (the `typeof ... !== "undefined"` test of line 127) and
`callbackCalls` records, in order, the arguments it has been invoked with.
`state` is the snapshot `this.state` (`none` is JS `undefined`);
`infoLogs` records the `console.info` fallback of line 130; `s` is the
SocketListener created by `run`. -/
structure StateListener where
  url : String
  hasCallback : Bool
  state : Option Json
  callbackCalls : List (Option Json)
  infoLogs : List (Option Json)
  s : Option SLState

/-- `new StateListener(url, stateChangeCallback)` (source lines 94-98):
stores the url and the callback, and initialises the snapshot to the empty
object literal. -/
def StateListener.construct (url : String) (hasCallback : Bool) : StateListener :=
  { url := url, hasCallback := hasCallback, state := some (Json.obj []),
    callbackCalls := [], infoLogs := [], s := none }

/-- `StateListener.handleStateUpdate(state)` (source lines 124-132): stores
the new snapshot, then invokes the user's callback with it when one is
defined, and otherwise logs the update informationally. -/
def StateListener.handleStateUpdate (sl : StateListener) (state : Option Json) :
    StateListener :=
  let sl1 : StateListener := { sl with state := state }
  if sl1.hasCallback then { sl1 with callbackCalls := sl1.callbackCalls ++ [state] }
  else { sl1 with infoLogs := sl1.infoLogs ++ [state] }

/-- `StateListener.genericEventListener(type, event)` (source lines 110-122),
parameterised by the platform's `JSON.parse` (`parse s = none` models a text
that is not valid JSON, on which `JSON.parse` throws a SyntaxError). On a
message event it parses `event.data` and, when the `event` field of the
parsed object is the string "state", hands the `data` field to
`handleStateUpdate`; any other `event` field value falls through the switch.
On `type == "close"` the source calls the free identifier
`handleStateUpdate`, which is not defined anywhere (the method lives on the
class, not in lexical scope), so the call throws a ReferenceError. -/
def StateListener.genericEventListener (parse : String → Option Json)
    (sl : StateListener) (type : String) (event : SocketEvent) :
    Except JsErr StateListener :=
  if type == "message" && event.type == "message" then
    match parse event.data with
    | none => .error (.syntaxError event.data)
    | some Json.null => .error (.typeError "cannot read property of null")
    | some json =>
        match json.getField "event" with
        | some (Json.str "state") => .ok (sl.handleStateUpdate (json.getField "data"))
        | _ => .ok sl
  else if type == "close" then
    .error (.referenceError "handleStateUpdate")
  else
    .ok sl

/-- `StateListener.run()` (source lines 100-108): creates the SocketListener
with a callback map of three wrappers, registered under "open", "close" and
"message" in that insertion order; the wrappers (opaque here) forward to
`genericEventListener` tagged with the respective event name. -/
def StateListener.run (sl : StateListener) : Except JsErr StateListener :=
  match SocketListener.construct sl.url
      (some [("open", Handler.caller 0), ("close", Handler.caller 1),
             ("message", Handler.caller 2)]) with
  | .error e => .error e
  | .ok st => .ok { sl with s := some st }

/- ### Lemmas about handleStateUpdate -/

lemma handleStateUpdate_state (sl : StateListener) (v : Option Json) :
    (sl.handleStateUpdate v).state = v := by
  unfold StateListener.handleStateUpdate
  cases h : sl.hasCallback <;> simp [h]

lemma handleStateUpdate_calls_of_hasCallback (sl : StateListener) (v : Option Json)
    (h : sl.hasCallback = true) :
    (sl.handleStateUpdate v).callbackCalls = sl.callbackCalls ++ [v] := by
  unfold StateListener.handleStateUpdate
  simp [h]

lemma handleStateUpdate_calls_of_noCallback (sl : StateListener) (v : Option Json)
    (h : sl.hasCallback = false) :
    (sl.handleStateUpdate v).callbackCalls = sl.callbackCalls := by
  unfold StateListener.handleStateUpdate
  simp [h]

/- ### C1 -/

/-- C1: an inbound text message whose payload parses as a JSON object with
field `event` equal to "state" and field `data` equal to X, dispatched to
`genericEventListener` with type "message" and an event whose own type is
"message", invokes the user's state-change callback (when defined) exactly
once with X, and leaves the state snapshot equal to X. -/
theorem c1_state_message_updates_and_notifies
    (parse : String → Option Json) (sl : StateListener) (event : SocketEvent)
    (fields : List (String × Json)) (X : Json)
    (ht : event.type = "message")
    (hp : parse event.data = some (Json.obj fields))
    (he : Json.getField (Json.obj fields) "event" = some (Json.str "state"))
    (hd : Json.getField (Json.obj fields) "data" = some X) :
    ∃ sl', StateListener.genericEventListener parse sl "message" event = .ok sl' ∧
      sl'.state = some X ∧
      (sl.hasCallback = true → sl'.callbackCalls = sl.callbackCalls ++ [some X]) ∧
      (sl.hasCallback = false → sl'.callbackCalls = sl.callbackCalls) := by
  refine ⟨sl.handleStateUpdate (some X), ?_, handleStateUpdate_state sl (some X),
    handleStateUpdate_calls_of_hasCallback sl (some X),
    handleStateUpdate_calls_of_noCallback sl (some X)⟩
  unfold StateListener.genericEventListener
  simp [ht, hp, he, hd]

/-- Witness for C1 at a concrete message carrying the state payload 7. -/
theorem c1_witness :
    ∃ sl', StateListener.genericEventListener
        (fun _ => some (Json.obj [("event", Json.str "state"), ("data", Json.num 7)]))
        (StateListener.construct "wss://x" true) "message"
        { type := "message", data := "payload" } = .ok sl' ∧
      sl'.state = some (Json.num 7) ∧
      ((StateListener.construct "wss://x" true).hasCallback = true →
        sl'.callbackCalls = (StateListener.construct "wss://x" true).callbackCalls ++ [some (Json.num 7)]) ∧
      ((StateListener.construct "wss://x" true).hasCallback = false →
        sl'.callbackCalls = (StateListener.construct "wss://x" true).callbackCalls) :=
  c1_state_message_updates_and_notifies
    (fun _ => some (Json.obj [("event", Json.str "state"), ("data", Json.num 7)]))
    (StateListener.construct "wss://x" true)
    { type := "message", data := "payload" }
    [("event", Json.str "state"), ("data", Json.num 7)] (Json.num 7)
    rfl rfl rfl rfl

/- ### C2 -/

/-- C2 (code bug): dispatching a close event through `genericEventListener`
does NOT invoke the state-change callback with "closed": the `type == "close"`
branch calls the free identifier `handleStateUpdate`, which is undefined, so
the dispatch raises a ReferenceError and neither the callback nor the
snapshot is touched, contradicting the class's own documentation
("closed" is passed when the connection is closed, source line 90). -/
theorem c2_close_dispatch_raises_referenceError
    (parse : String → Option Json) (sl : StateListener) (event : SocketEvent) :
    StateListener.genericEventListener parse sl "close" event =
      .error (.referenceError "handleStateUpdate") := rfl

/- ### C6 -/

/-- C6: a message whose payload parses as a JSON object whose `event` field
holds any value other than "state" is silently ignored: the dispatch returns
the instance unchanged, so the callback is not invoked and the snapshot is
unchanged. -/
theorem c6_non_state_event_ignored
    (parse : String → Option Json) (sl : StateListener) (event : SocketEvent)
    (fields : List (String × Json)) (v : Json)
    (ht : event.type = "message")
    (hp : parse event.data = some (Json.obj fields))
    (he : Json.getField (Json.obj fields) "event" = some v)
    (hv : v ≠ Json.str "state") :
    StateListener.genericEventListener parse sl "message" event = .ok sl := by
  unfold StateListener.genericEventListener
  cases v with
  | str s =>
      have hs : s ≠ "state" := by intro h; exact hv (by rw [h])
      simp [ht, hp, he, hs]
  | null => simp [ht, hp, he]
  | bool b => simp [ht, hp, he]
  | num n => simp [ht, hp, he]
  | arr elems => simp [ht, hp, he]
  | obj fs => simp [ht, hp, he]

/-- Witness for C6 at a message whose event field is the string "other". -/
theorem c6_witness :
    StateListener.genericEventListener
        (fun _ => some (Json.obj [("event", Json.str "other")]))
        (StateListener.construct "wss://x" true) "message"
        { type := "message", data := "payload" } =
      .ok (StateListener.construct "wss://x" true) :=
  c6_non_state_event_ignored
    (fun _ => some (Json.obj [("event", Json.str "other")]))
    (StateListener.construct "wss://x" true)
    { type := "message", data := "payload" }
    [("event", Json.str "other")] (Json.str "other")
    rfl rfl rfl (by simp)

/- ### C7 -/

/-- C7: a message event whose payload is not valid JSON makes
`genericEventListener` raise the (unhandled) SyntaxError of `JSON.parse`:
the dispatch returns the parse error, so the state-change callback is not
invoked and the stored snapshot is unchanged by that message. -/
theorem c7_malformed_json_raises_syntaxError
    (parse : String → Option Json) (sl : StateListener) (event : SocketEvent)
    (ht : event.type = "message")
    (hp : parse event.data = none) :
    StateListener.genericEventListener parse sl "message" event =
      .error (.syntaxError event.data) := by
  unfold StateListener.genericEventListener
  rw [ht, hp]
  simp

/-- Witness for C7 with a parse function rejecting every text. -/
theorem c7_witness :
    StateListener.genericEventListener (fun _ => none)
        (StateListener.construct "wss://x" true) "message"
        { type := "message", data := "not json" } =
      .error (.syntaxError "not json") :=
  c7_malformed_json_raises_syntaxError (fun _ => none)
    (StateListener.construct "wss://x" true)
    { type := "message", data := "not json" } rfl rfl

/- ### C10 -/

/-- C10: an event dispatched with type "open", or with type "message" while
the event object's own type is not "message", is a no-op: for every parse
function the dispatch returns the instance unchanged without consulting the
parser, so nothing is parsed, the callback is not invoked and the snapshot is
unchanged. -/
theorem c10_open_or_mismatched_message_is_noop
    (parse : String → Option Json) (sl : StateListener) (type : String)
    (event : SocketEvent)
    (h : type = "open" ∨ (type = "message" ∧ event.type ≠ "message")) :
    StateListener.genericEventListener parse sl type event = .ok sl := by
  rcases h with h | ⟨h1, h2⟩
  · subst h; rfl
  · subst h1
    unfold StateListener.genericEventListener
    simp [h2]

/-- Witness for C10 at an open event and at a message dispatch whose event
object carries type "close". -/
theorem c10_witness :
    StateListener.genericEventListener (fun _ => none)
        (StateListener.construct "wss://x" true) "open"
        { type := "open", data := "" } = .ok (StateListener.construct "wss://x" true) :=
  c10_open_or_mismatched_message_is_noop (fun _ => none)
    (StateListener.construct "wss://x" true) "open"
    { type := "open", data := "" } (Or.inl rfl)

/- ### C5 -/

/-- C5: constructing a StateListener stores only the url, the callback and
the empty-object snapshot, creating no SocketListener and hence no socket;
run() then creates the SocketListener, whose constructor immediately runs
initConnection, leaving one connection attempt made and a live socket. -/
theorem c5_construct_lazy_run_connects (url : String) (hasCb : Bool) :
    StateListener.construct url hasCb =
      { url := url, hasCallback := hasCb, state := some (Json.obj []),
        callbackCalls := [], infoLogs := [], s := none } ∧
    ∃ sl' st sock, (StateListener.construct url hasCb).run = .ok sl' ∧
      sl' = { StateListener.construct url hasCb with s := some st } ∧
      st.connectAttempts = 1 ∧ st.socket = some sock := by
  refine ⟨rfl, ?_⟩
  exact ⟨_, _, _, rfl, rfl, rfl, rfl⟩

/- ### C8 -/

/-- C8 (code bug): `addListeners` with an undefined map logs an error and
returns (no exception, nothing attached), as claimed; but with a defined map
of two entries with distinct handlers it does NOT attach each entry's own
handler: the loop's `var callback` binding is shared by all the wrapper
closures, so every attached listener invokes the handler of the map's last
entry (here both the "open" and the "close" listener invoke handler 2, and
handler 1 is attached nowhere). -/
theorem c8_addListeners_var_capture :
    addListeners
        { url := "u", callbacks := none, closed_repeat_delay := 10,
          socket := some { sid := 0, listeners := [], closeRequested := false },
          nextSid := 1, timers := [], errorLogs := [], connectAttempts := 1 }
        none =
      .ok { url := "u", callbacks := none, closed_repeat_delay := 10,
            socket := some { sid := 0, listeners := [], closeRequested := false },
            nextSid := 1, timers := [],
            errorLogs := ["SocketListener:addListener() no callbacks passed"],
            connectAttempts := 1 } ∧
    addListeners
        { url := "u", callbacks := none, closed_repeat_delay := 10,
          socket := some { sid := 0, listeners := [], closeRequested := false },
          nextSid := 1, timers := [], errorLogs := [], connectAttempts := 1 }
        (some [("open", Handler.caller 1), ("close", Handler.caller 2)]) =
      .ok { url := "u", callbacks := none, closed_repeat_delay := 10,
            socket := some { sid := 0,
                             listeners := [("open", Handler.caller 2), ("close", Handler.caller 2)],
                             closeRequested := false },
            nextSid := 1, timers := [], errorLogs := [], connectAttempts := 1 } :=
  ⟨rfl, rfl⟩

/- ### C4 -/

/-- C4 (code bug): the structural reconnect close handler is indeed attached
on every connection cycle (it appears among the handlers fired on close), but
a caller-supplied "close" handler does NOT also fire in general: constructing
with the map close ↦ handler 1, message ↦ handler 2, a close event fires
handler 2 (the map's last entry, captured by the shared `var callback`
binding) and the structural handler, while the caller's close handler 1 never
fires. -/
theorem c4_caller_close_handler_lost :
    (SocketListener.construct "wss://x"
        (some [("close", Handler.caller 1), ("message", Handler.caller 2)])).map
      (fun st => st.socket.map firedOnClose) =
      .ok (some [Handler.caller 2, Handler.structural]) ∧
    Handler.caller 1 ∉ [Handler.caller 2, Handler.structural] :=
  ⟨rfl, by decide⟩

/- ### C9 -/

/-- C9: close() only requests closure of the current socket when one exists
and is a no-op otherwise; it changes nothing else — in particular the pending
reconnect timers are untouched, and the structural close handler firing
afterwards still schedules the reconnect exactly as before. -/
theorem c9_close_requests_closure_only (st : SLState) :
    (SocketListener.close st).timers = st.timers ∧
    (st.socket = none → SocketListener.close st = st) ∧
    (∀ s, st.socket = some s →
      SocketListener.close st =
        { st with socket := some { s with closeRequested := true } } ∧
      fireClose (SocketListener.close st) =
        { st with socket := some { s with closeRequested := true },
                  timers := st.timers ++
                    List.replicate (structuralCloseCount s) (st.closed_repeat_delay * 1000) }) := by
  refine ⟨?_, ?_, ?_⟩
  · unfold SocketListener.close
    cases hs : st.socket <;> simp
  · intro h
    unfold SocketListener.close
    rw [h]
  · intro s h
    unfold SocketListener.close
    rw [h]
    exact ⟨rfl, rfl⟩

/-- Witness for C9 at a state with no socket and at a state with a socket
carrying one structural close listener and one pending timer. -/
theorem c9_witness :
    SocketListener.close
        { url := "u", callbacks := none, closed_repeat_delay := 10,
          socket := none, nextSid := 0, timers := [5], errorLogs := [],
          connectAttempts := 1 } =
      { url := "u", callbacks := none, closed_repeat_delay := 10,
        socket := none, nextSid := 0, timers := [5], errorLogs := [],
        connectAttempts := 1 } ∧
    fireClose (SocketListener.close
        { url := "u", callbacks := none, closed_repeat_delay := 10,
          socket := some { sid := 0, listeners := [("close", Handler.structural)],
                           closeRequested := false },
          nextSid := 1, timers := [5], errorLogs := [], connectAttempts := 1 }) =
      { url := "u", callbacks := none, closed_repeat_delay := 10,
        socket := some { sid := 0, listeners := [("close", Handler.structural)],
                         closeRequested := true },
        nextSid := 1,
        timers := [5] ++ List.replicate
          (structuralCloseCount
            { sid := 0, listeners := [("close", Handler.structural)],
              closeRequested := false }) (10 * 1000),
        errorLogs := [], connectAttempts := 1 } :=
  ⟨(c9_close_requests_closure_only _).2.1 rfl,
   ((c9_close_requests_closure_only _).2.2
     { sid := 0, listeners := [("close", Handler.structural)],
       closeRequested := false } rfl).2⟩

/- ### C3: the reconnect loop -/

lemma getLast?_mem_of_eq_some {α : Type} {l : List α} {a : α}
    (h : l.getLast? = some a) : a ∈ l := by
  have hne : l ≠ [] := by
    intro e
    rw [e] at h
    cases h
  have hg := List.getLast?_eq_getLast_of_ne_nil hne
  rw [hg] at h
  have : l.getLast hne = a := by injection h
  rw [← this]
  exact List.getLast_mem hne

lemma attachEntries_no_structural (m : CallbackMap)
    (h : m.all (fun p => !p.2.isStructural) = true) :
    (attachEntries m).filter (fun p => p.1 == "close" && p.2.isStructural) = [] := by
  unfold attachEntries
  cases hl : m.getLast? with
  | none => rfl
  | some last =>
      have hmem : last ∈ m := getLast?_mem_of_eq_some hl
      have hlast : last.2.isStructural = false := by
        have := List.all_eq_true.mp h last hmem
        simpa using this
      apply List.filter_eq_nil_iff.mpr
      intro a ha
      obtain ⟨p, _, rfl⟩ := List.mem_map.mp ha
      simp [hlast]

lemma initConnection_eq_none (st : SLState) (hc : st.callbacks = none) :
    initConnection st = .ok { st with
      socket := some { sid := st.nextSid,
                       listeners := [("close", Handler.structural)],
                       closeRequested := false },
      nextSid := st.nextSid + 1,
      connectAttempts := st.connectAttempts + 1,
      errorLogs := st.errorLogs ++ ["SocketListener:addListener() no callbacks passed"] } := by
  simp [initConnection, addListeners, hc, attachEntries]

lemma initConnection_eq_some (st : SLState) (m : CallbackMap)
    (hc : st.callbacks = some m) :
    initConnection st = .ok { st with
      socket := some { sid := st.nextSid,
                       listeners := attachEntries m ++ [("close", Handler.structural)],
                       closeRequested := false },
      nextSid := st.nextSid + 1,
      connectAttempts := st.connectAttempts + 1 } := by
  simp [initConnection, addListeners, hc]
  rfl

/-- A SocketListener state as left by any run of initConnection: its socket
exists and carries exactly one structural reconnect close listener, its
callback map is the constructor-supplied one, and the delay is the fixed 10
seconds. -/
def ReadyState (cbs : Option CallbackMap) (st : SLState) : Prop :=
  st.callbacks = cbs ∧ st.closed_repeat_delay = 10 ∧
  ∃ s, st.socket = some s ∧ structuralCloseCount s = 1

lemma initConnection_ready (cbs : Option CallbackMap) (st : SLState)
    (hcb : st.callbacks = cbs) (hd : st.closed_repeat_delay = 10)
    (h : noStructuralMap cbs = true) :
    ∃ st', initConnection st = .ok st' ∧ ReadyState cbs st' ∧
      st'.connectAttempts = st.connectAttempts + 1 ∧ st'.timers = st.timers := by
  cases hc : cbs with
  | none =>
      rw [hc] at hcb
      refine ⟨_, initConnection_eq_none st hcb, ⟨?_, ?_, ⟨_, rfl, rfl⟩⟩, rfl, rfl⟩
      · rw [hcb]
      · exact hd
  | some m =>
      rw [hc] at hcb h
      have hm : m.all (fun p => !p.2.isStructural) = true := by simpa [noStructuralMap] using h
      refine ⟨_, initConnection_eq_some st m hcb, ⟨?_, ?_, ⟨_, rfl, ?_⟩⟩, rfl, rfl⟩
      · rw [hcb]
      · exact hd
      · unfold structuralCloseCount
        simp only
        rw [List.filter_append, attachEntries_no_structural m hm]
        rfl

lemma fireClose_ready (cbs : Option CallbackMap) (st : SLState)
    (h : ReadyState cbs st) :
    fireClose st = { st with timers := st.timers ++ [10 * 1000] } ∧
    ReadyState cbs { st with timers := st.timers ++ [10 * 1000] } := by
  obtain ⟨hcb, hd, s, hs, hcount⟩ := h
  constructor
  · unfold fireClose
    rw [hs]
    simp [hcount, hd]
  · exact ⟨hcb, hd, ⟨s, hs, hcount⟩⟩

lemma step_ready (cbs : Option CallbackMap) (st : SLState)
    (hns : noStructuralMap cbs = true) (h : ReadyState cbs st) (ev : DriverEvent) :
    ∃ st', step st ev = .ok st' ∧ ReadyState cbs st' := by
  cases ev with
  | closeEvent =>
      obtain ⟨heq, hready⟩ := fireClose_ready cbs st h
      exact ⟨_, by simp [step, heq], hready⟩
  | timerFire =>
      cases ht : st.timers with
      | nil => exact ⟨st, by simp [step, ht], h⟩
      | cons d rest =>
          obtain ⟨hcb, hd, _⟩ := h
          obtain ⟨st', heq, hready, _, _⟩ :=
            initConnection_ready cbs { st with timers := rest } hcb hd hns
          exact ⟨st', by simp [step, ht, heq], hready⟩

lemma foldl_ready (cbs : Option CallbackMap) (hns : noStructuralMap cbs = true) :
    ∀ (evs : List DriverEvent) (r : Except JsErr SLState),
      (∃ st, r = .ok st ∧ ReadyState cbs st) →
      ∃ st, evs.foldl stepE r = .ok st ∧ ReadyState cbs st := by
  intro evs
  induction evs with
  | nil => intro r hr; simpa using hr
  | cons ev rest ih =>
      intro r hr
      obtain ⟨st, rfl, hst⟩ := hr
      rw [List.foldl_cons]
      apply ih
      obtain ⟨st', heq, hready⟩ := step_ready cbs st hns hst ev
      exact ⟨st', heq, hready⟩

lemma runEvents_ready (url : String) (cbs : Option CallbackMap)
    (evs : List DriverEvent) (hns : noStructuralMap cbs = true) :
    ∃ st, runEvents url cbs evs = .ok st ∧ ReadyState cbs st := by
  apply foldl_ready cbs hns
  obtain ⟨st', heq, hready, _, _⟩ :=
    initConnection_ready cbs
      { url := url, callbacks := cbs, closed_repeat_delay := 10, socket := none,
        nextSid := 0, timers := [], errorLogs := [], connectAttempts := 0 }
      rfl rfl hns
  exact ⟨st', heq, hready⟩

lemma retryCycles_attempts (cbs : Option CallbackMap)
    (hns : noStructuralMap cbs = true) :
    ∀ (n : Nat) (st : SLState), ReadyState cbs st →
      ∃ st', (retryCycles n).foldl stepE (.ok st) = .ok st' ∧ ReadyState cbs st' ∧
        st'.connectAttempts = st.connectAttempts + n := by
  intro n
  induction n with
  | zero => intro st h; exact ⟨st, rfl, h, rfl⟩
  | succ n ih =>
      intro st hst
      obtain ⟨hfc, hready1⟩ := fireClose_ready cbs st hst
      obtain ⟨hcb1, hd1, _⟩ := hready1
      obtain ⟨d, rest, hsplit⟩ :
          ∃ d rest, st.timers ++ [10 * 1000] = d :: rest := by
        cases st.timers with
        | nil => exact ⟨_, _, rfl⟩
        | cons x xs => exact ⟨_, _, rfl⟩
      obtain ⟨st2, heq2, hready2, hatt2, _⟩ :=
        initConnection_ready cbs
          { st with timers := rest } hcb1 hd1 hns
      obtain ⟨st', heq', hready', hatt'⟩ := ih st2 hready2
      refine ⟨st', ?_, hready', ?_⟩
      · show (DriverEvent.closeEvent :: DriverEvent.timerFire :: retryCycles n).foldl
            stepE (.ok st) = .ok st'
        rw [List.foldl_cons, List.foldl_cons]
        have h1 : stepE (.ok st) DriverEvent.closeEvent =
            .ok { st with timers := st.timers ++ [10 * 1000] } := by
          simp [stepE, step, hfc]
        rw [h1]
        have h2 : stepE (.ok { st with timers := st.timers ++ [10 * 1000] })
            DriverEvent.timerFire = .ok st2 := by
          simp only [stepE, step, hsplit]
          exact heq2
        rw [h2, heq']
      · rw [hatt', hatt2]
        simp only [Nat.add_assoc, Nat.add_comm 1 n]

/-- C3: for every caller callback map and every event history, each close
event delivered to the current socket schedules exactly one reconnect (the
pending-timer list grows by exactly one entry, with a delay of exactly
10 × 1000 ms, the fixed 10 seconds), and the retry loop is unbounded: for
every n, n further close/timer-expiry cycles run through and make exactly n
further connection attempts. -/
theorem c3_each_close_schedules_one_reconnect
    (url : String) (cbs : Option CallbackMap) (evs : List DriverEvent)
    (hns : noStructuralMap cbs = true) :
    ∃ st, runEvents url cbs evs = .ok st ∧
      st.closed_repeat_delay = 10 ∧
      step st .closeEvent = .ok { st with timers := st.timers ++ [10 * 1000] } ∧
      (∀ n, ∃ st', runEvents url cbs (evs ++ retryCycles n) = .ok st' ∧
        st'.connectAttempts = st.connectAttempts + n) := by
  obtain ⟨st, hrun, hready⟩ := runEvents_ready url cbs evs hns
  obtain ⟨hfc, _⟩ := fireClose_ready cbs st hready
  refine ⟨st, hrun, hready.2.1, by simp [step, hfc], ?_⟩
  intro n
  obtain ⟨st', heq', _, hatt'⟩ := retryCycles_attempts cbs hns n st hready
  refine ⟨st', ?_, hatt'⟩
  unfold runEvents at hrun ⊢
  rw [List.foldl_append, hrun]
  exact heq'

/-- Witness for C3 with the callback map StateListener.run supplies, after an
empty prior history. -/
theorem c3_witness :
    ∃ st, runEvents "wss://x"
        (some [("open", Handler.caller 0), ("close", Handler.caller 1),
               ("message", Handler.caller 2)]) [] = .ok st ∧
      st.closed_repeat_delay = 10 ∧
      step st .closeEvent = .ok { st with timers := st.timers ++ [10 * 1000] } ∧
      (∀ n, ∃ st', runEvents "wss://x"
          (some [("open", Handler.caller 0), ("close", Handler.caller 1),
                 ("message", Handler.caller 2)]) ([] ++ retryCycles n) = .ok st' ∧
        st'.connectAttempts = st.connectAttempts + n) :=
  c3_each_close_schedules_one_reconnect "wss://x"
    (some [("open", Handler.caller 0), ("close", Handler.caller 1),
           ("message", Handler.caller 2)]) [] (by decide)

end EliteLog
